import Mathlib

/-!
Verification of the Olympic data standardization pipeline
(olympic_data_standardization.py and olympic_analysis_utils.py).

A pandas DataFrame is modelled as a schema (which columns are present) plus
a list of rows; a cell is a string, a number, or null (NaN).  Numeric cells
are modelled as integers, since every numeric value the pipeline manipulates
(years, counts) is integral; percentages are modelled as rationals.
Fallible operations return `Except PyError`; code that only prints
information is modelled by returning the printed data in a result structure.
-/

/-- A pandas cell: a string, a number (modelled as an integer), or NaN. -/
inductive Cell where
  | str : String → Cell
  | num : Int → Cell
  | null : Cell
deriving DecidableEq, Repr

/-- Python exceptions the modelled code can raise. -/
inductive PyError where
  | keyError : String → PyError
  | valueError : String → PyError
  | zeroDivisionError : PyError
  | typeError : PyError
deriving DecidableEq, Repr

/-- One row of a table.  Fields of columns that are absent from the table
schema are ignored by every operation. -/
structure Row where
  noc : Cell
  edition : Cell
  year : Cell
  editionYear : Cell
  gamesYear : Cell
  medal : Cell
  sport : Cell
  event : Cell
  athleteId : Cell
deriving DecidableEq, Repr

/-- Which columns a table has (pandas checks membership in df.columns). -/
structure Cols where
  noc : Bool
  edition : Bool
  year : Bool
  editionYear : Bool
  gamesYear : Bool
  medal : Bool
  sport : Bool
  event : Bool
  athleteId : Bool
deriving DecidableEq, Repr

/-- A pandas DataFrame: a schema plus an ordered list of rows. -/
structure Table where
  cols : Cols
  rows : List Row
deriving DecidableEq, Repr

/-- pandas elementwise equality: NaN compares unequal to everything,
including itself; values of different kinds compare unequal. -/
def pdEq : Cell → Cell → Bool
  | Cell.str a, Cell.str b => a == b
  | Cell.num a, Cell.num b => a == b
  | _, _ => false

theorem pdEq_str_iff (c : Cell) (s : String) :
    pdEq c (Cell.str s) = true ↔ c = Cell.str s := by
  cases c <;> simp [pdEq]

theorem pdEq_null_right (c : Cell) : pdEq c Cell.null = false := by
  cases c <;> rfl

/-! ## handle_historical_anomalies -/

/-- The disallowed period label deleted by handle_historical_anomalies. -/
def disallowedEdition : String := "1906 Summer Olympics"

/-- Updated tables and printed deletion counts of handle_historical_anomalies. -/
structure AnomalyResult where
  athletes : Table
  medals : Table
  deleted1906 : Nat
  deletedMedals1906 : Nat
deriving DecidableEq, Repr

/-- Whether a cell holds a string. -/
def Cell.isStr : Cell → Bool
  | Cell.str _ => true
  | _ => false

/-- Whether a column mixes string cells with non-string cells (NaN or
numbers).  Python cannot order such a mix: sorted() over the unique values
of a column compares adjacent values and raises TypeError exactly when both
kinds are present (a single kind, including NaN-only or several NaN floats,
sorts without error). -/
def mixedStrTypes (cells : List Cell) : Bool :=
  (cells.any fun c => c.isStr) && (cells.any fun c => !(c.isStr))

/-- Model of handle_historical_anomalies: drops every row whose edition cell
equals the 1906 label from the athletes table (the edition column is read
without a guard, so its absence is a KeyError) and, when the medals table has
an edition column, from the medals table.  pandas `!=` keeps NaN cells.
Afterwards the gap-year diagnostic sorts the unique edition values of the
filtered athletes table, which raises TypeError when string and non-string
cells both remain. -/
def handle_historical_anomalies (athletes medals : Table) :
    Except PyError AnomalyResult :=
  if athletes.cols.edition = false then
    Except.error (PyError.keyError "edition")
  else
    let keptA := athletes.rows.filter fun r =>
      !(pdEq r.edition (Cell.str disallowedEdition))
    let d1 := athletes.rows.length - keptA.length
    let res : AnomalyResult :=
      if medals.cols.edition then
        let keptM := medals.rows.filter fun r =>
          !(pdEq r.edition (Cell.str disallowedEdition))
        ⟨{ athletes with rows := keptA }, { medals with rows := keptM },
         d1, medals.rows.length - keptM.length⟩
      else
        ⟨{ athletes with rows := keptA }, medals, d1, 0⟩
    if mixedStrTypes (keptA.map Row.edition) then
      Except.error PyError.typeError
    else
      Except.ok res

/-! ## standardize_country_codes -/

/-- The static many-to-one country mapping of standardize_country_codes. -/
def country_mapping : List (String × String) :=
  [("URS", "RUS"), ("EUN", "RUS"), ("GDR", "GER"), ("FRG", "GER")]

/-- The sentinel country code whose rows are dropped entirely. -/
def sentinelCode : String := "MIX"

/-- Series.replace with a dict: a string cell that is a key of the mapping is
replaced by its value in one simultaneous pass; all other cells unchanged. -/
def replaceCell (mapping : List (String × String)) : Cell → Cell
  | Cell.str s =>
    match mapping.lookup s with
    | some t => Cell.str t
    | none => Cell.str s
  | c => c

/-- One table pass of the consolidation, exactly in source order: substitute
through the mapping, count the rows now carrying the sentinel, drop them.
Returns the kept rows and the sentinel-drop count. -/
def consolidateRows (mapping : List (String × String)) (sentinel : String)
    (rows : List Row) : List Row × Nat :=
  let replaced := rows.map fun r => { r with noc := replaceCell mapping r.noc }
  let mixCount := (replaced.filter fun r => pdEq r.noc (Cell.str sentinel)).length
  (replaced.filter fun r => !(pdEq r.noc (Cell.str sentinel)), mixCount)

/-- Updated tables and the printed Mixed Team drop count. -/
structure ConsolidateResult where
  athletes : Table
  medals : Table
  mixedTeamCount : Nat
deriving DecidableEq, Repr

/-- Model of standardize_country_codes: the athletes block and the medals
block are each guarded on the presence of the noc column, but the closing
post-Soviet verification reads the athletes noc column without a guard, so
the method raises KeyError whenever the athletes table lacks noc. -/
def standardize_country_codes (athletes medals : Table) :
    Except PyError ConsolidateResult :=
  let athletesPart :=
    if athletes.cols.noc then
      let p := consolidateRows country_mapping sentinelCode athletes.rows
      ({ athletes with rows := p.1 }, p.2)
    else (athletes, 0)
  let medals1 :=
    if medals.cols.noc then
      { medals with rows := (consolidateRows country_mapping sentinelCode medals.rows).1 }
    else medals
  if athletes.cols.noc then
    Except.ok ⟨athletesPart.1, medals1, athletesPart.2⟩
  else
    Except.error (PyError.keyError "noc")

/-! ## create_active_athletes_subset -/

/-- The year columns recognized by create_active_athletes_subset, in the
order in which the source searches for them. -/
inductive YearCol where
  | year
  | editionYear
  | gamesYear
deriving DecidableEq, Repr

/-- Read the given year column of a row. -/
def Row.getYC (r : Row) : YearCol → Cell
  | YearCol.year => r.year
  | YearCol.editionYear => r.editionYear
  | YearCol.gamesYear => r.gamesYear

/-- Write the given year column of a row. -/
def Row.setYC (r : Row) : YearCol → Cell → Row
  | YearCol.year, c => { r with year := c }
  | YearCol.editionYear, c => { r with editionYear := c }
  | YearCol.gamesYear, c => { r with gamesYear := c }

/-- The first recognized year column present in the table, searching
year, edition_year, games_year in order. -/
def chooseYearCol (t : Table) : Option YearCol :=
  if t.cols.year then some YearCol.year
  else if t.cols.editionYear then some YearCol.editionYear
  else if t.cols.gamesYear then some YearCol.gamesYear
  else none

/-- pd.to_numeric with errors coerce on one cell: numbers pass through,
numeric strings parse, everything else (including NaN) becomes NaN. -/
def toNumericCell : Cell → Cell
  | Cell.num n => Cell.num n
  | Cell.str s =>
    match s.toInt? with
    | some n => Cell.num n
    | none => Cell.null
  | Cell.null => Cell.null

/-- Decimal value of an ASCII digit character. -/
def digitVal (c : Char) : Nat := c.toNat - 48

/-- First match of the regular-expression pattern of four consecutive digits,
scanning the character list left to right (regex first-match semantics). -/
def extractFirst4 : List Char → Option Nat
  | a :: b :: c :: d :: rest =>
    if a.isDigit && b.isDigit && c.isDigit && d.isDigit then
      some (digitVal a * 1000 + digitVal b * 100 + digitVal c * 10 + digitVal d)
    else
      extractFirst4 (b :: c :: d :: rest)
  | _ => none

/-- Year extraction from the edition column: str.extract of a four-digit
token followed by astype to float.  Non-string cells and strings without a
match give NaN. -/
def extractYearCell : Cell → Cell
  | Cell.str s =>
    match extractFirst4 s.data with
    | some n => Cell.num (Int.ofNat n)
    | none => Cell.null
  | _ => Cell.null

/-- The row predicate of the active subset: the resolved year cell is
numeric and at least the cutoff (a NaN comparison is False in pandas). -/
def activePred (cutoff : Int) (yc : YearCol) (r : Row) : Bool :=
  match r.getYC yc with
  | Cell.num n => decide (cutoff ≤ n)
  | _ => false

/-- The mutated primary table, the active subset and the printed counts of
create_active_athletes_subset. -/
structure SubsetResult where
  athletes : Table
  active : Table
  usedCol : YearCol
  total : Nat
  activeCount : Nat
  retention : Rat
deriving DecidableEq, Repr

/-- The fatal-configuration message of create_active_athletes_subset. -/
def yearSourceMsg : String := "Cannot find year information in athletes dataset"

/-- Common tail of create_active_athletes_subset once a year column has been
fixed: coerce the column to numeric in place, filter by the cutoff, and
report the counts; the printed retention rate divides the active count by
the total count, a ZeroDivisionError on an empty table. -/
def buildSubset (t : Table) (yc : YearCol) (cutoff : Int) :
    Except PyError SubsetResult :=
  let t1 := { t with rows := t.rows.map fun r => r.setYC yc (toNumericCell (r.getYC yc)) }
  let activeRows := t1.rows.filter (activePred cutoff yc)
  if t1.rows.length = 0 then
    Except.error PyError.zeroDivisionError
  else
    Except.ok ⟨t1, { t1 with rows := activeRows }, yc, t1.rows.length,
      activeRows.length,
      (activeRows.length : Rat) / (t1.rows.length : Rat) * 100⟩

/-- Model of create_active_athletes_subset: pick the first recognized year
column; otherwise extract a four-digit year from the edition column into a
new year column; otherwise raise ValueError. -/
def create_active_athletes_subset (athletes : Table) (cutoff : Int) :
    Except PyError SubsetResult :=
  match chooseYearCol athletes with
  | some yc => buildSubset athletes yc cutoff
  | none =>
    if athletes.cols.edition then
      buildSubset
        { athletes with
          cols := { athletes.cols with year := true },
          rows := athletes.rows.map fun r => { r with year := extractYearCell r.edition } }
        YearCol.year cutoff
    else
      Except.error (PyError.valueError yearSourceMsg)

/-! ## validate_data_quality -/

/-- The numeric values of the year column with nulls dropped.  The pipeline
coerces the year column to numeric before validation, so the dropna result
is modelled as the numeric cells of the column. -/
def numericYears (rows : List Row) : List Int :=
  rows.filterMap fun r =>
    match r.year with
    | Cell.num n => some n
    | _ => none

/-- The important columns checked for nulls, restricted to those present. -/
def nullCheckCols (t : Table) : List (String × (Row → Cell)) :=
  (if t.cols.noc then [("noc", Row.noc)] else []) ++
  (if t.cols.medal then [("medal", Row.medal)] else []) ++
  (if t.cols.sport then [("sport", Row.sport)] else [])

/-- pandas unique: the distinct values of a list in first-occurrence order
(NaN, when present, is kept once like any other value).  Pruning the head
value after the recursive call yields the same list as pruning it before
and keeps the recursion structural. -/
def firstUniques {α : Type} [DecidableEq α] : List α → List α
  | [] => []
  | c :: rest => c :: (firstUniques rest).filter fun x => x != c

/-- pandas Series.nunique: number of distinct non-null values. -/
def nunique (cells : List Cell) : Nat :=
  (firstUniques (cells.filter fun c => c != Cell.null)).length

/-- One row of the country strength feature table.  The medal-count fields
exist only when the input has a medal column: gold, silver, bronze, total
non-null medals. -/
structure CountryFeat where
  noc : Cell
  athleteCount : Nat
  uniqueSports : Nat
  uniqueEvents : Nat
  medalCounts : Option (Nat × Nat × Nat × Nat)
deriving DecidableEq, Repr

/-- The aggregate feature row of one country: select the country's rows
with a pandas equality comparison (which a NaN key never satisfies) and
count athletes, distinct sports and events, and medals per tier. -/
def countryFeatOf (active : Table) (code : Cell) : CountryFeat :=
  let countryData := active.rows.filter fun r => pdEq r.noc code
  { noc := code
    athleteCount := countryData.length
    uniqueSports :=
      if active.cols.sport then nunique (countryData.map Row.sport) else 0
    uniqueEvents :=
      if active.cols.event then nunique (countryData.map Row.event) else 0
    medalCounts :=
      if active.cols.medal then
        let medalRows := countryData.filter fun r => r.medal != Cell.null
        some ((medalRows.filter fun r => pdEq r.medal (Cell.str "Gold")).length,
              (medalRows.filter fun r => pdEq r.medal (Cell.str "Silver")).length,
              (medalRows.filter fun r => pdEq r.medal (Cell.str "Bronze")).length,
              medalRows.length)
      else none }

/-- Model of create_country_features: iterate over the distinct noc values
(an unguarded column access) and aggregate one feature row per value.  The
closing set_index raises KeyError on the empty feature frame. -/
def create_country_features (active : Table) : Except PyError (List CountryFeat) :=
  if active.cols.noc = false then
    Except.error (PyError.keyError "noc")
  else
    let feats := (firstUniques (active.rows.map Row.noc)).map (countryFeatOf active)
    if feats.isEmpty then Except.error (PyError.keyError "noc")
    else Except.ok feats

/-- One row of the historical medal trend table. -/
structure TrendRow where
  year : Cell
  noc : Cell
  medal : Cell
  count : Nat
deriving DecidableEq, Repr

/-- Model of create_medal_trends: guarded on the medal and year columns
(otherwise an empty table is returned), it groups the non-null-medal rows by
year, noc and medal.  The noc column is accessed without a guard inside the
groupby.  groupby drops groups with a NaN key; group order is modelled as
first occurrence (pandas sorts the keys, but no claim depends on order). -/
def create_medal_trends (athletes : Table) : Except PyError (List TrendRow) :=
  if athletes.cols.medal && athletes.cols.year then
    if athletes.cols.noc = false then
      Except.error (PyError.keyError "noc")
    else
      let medalists := athletes.rows.filter fun r => r.medal != Cell.null
      let grouped := medalists.filter fun r =>
        r.year != Cell.null && r.noc != Cell.null
      let keys := firstUniques (grouped.map fun r => (r.year, r.noc, r.medal))
      Except.ok (keys.map fun k =>
        ⟨k.1, k.2.1, k.2.2,
         (grouped.filter fun r => (r.year, r.noc, r.medal) == k).length⟩)
  else
    Except.ok []

/-- One row of the sport-specific strength table. -/
structure SportStrengthRow where
  noc : Cell
  sport : Cell
  medals : Nat
  athletes : Nat
deriving DecidableEq, Repr

/-- Model of create_sport_strength: guarded on the sport and noc columns
(otherwise an empty table is returned), it aggregates per noc and sport.
The aggregation dict names the medal and athlete_id columns unconditionally,
so either column missing is a KeyError even though the guard passed; on the
reachable path the athletes figure is the count of non-null athlete ids.
groupby drops groups with a NaN key; group order is modelled as first
occurrence. -/
def create_sport_strength (active : Table) : Except PyError (List SportStrengthRow) :=
  if active.cols.sport && active.cols.noc then
    if active.cols.medal = false then
      Except.error (PyError.keyError "medal")
    else if active.cols.athleteId = false then
      Except.error (PyError.keyError "athlete_id")
    else
      let grouped := active.rows.filter fun r =>
        r.noc != Cell.null && r.sport != Cell.null
      let keys := firstUniques (grouped.map fun r => (r.noc, r.sport))
      Except.ok (keys.map fun k =>
        let g := grouped.filter fun r => (r.noc, r.sport) == k
        ⟨k.1, k.2,
         (g.filter fun r => r.medal != Cell.null).length,
         (g.filter fun r => r.athleteId != Cell.null).length⟩)
  else
    Except.ok []

/-! ## get_data_summary -/

/-- The figures printed by get_data_summary. -/
structure DataSummary where
  totalAthletes : Nat
  yearRange : Option (Int × Int)
  numCountries : Option Nat
  numSports : Option Nat
  numEvents : Option Nat
  activeInfo : Option (Nat × Rat)
deriving DecidableEq, Repr

/-- Model of get_data_summary: prints counts of the standardized data.
Converting the minimum of an all-null or empty year column to an integer
raises ValueError; when an active subset is supplied the retention rate
divides its row count by the athletes row count, a ZeroDivisionError on an
empty athletes table. -/
def get_data_summary (athletes : Table) (active : Option Table) :
    Except PyError DataSummary :=
  let ys := numericYears athletes.rows
  if athletes.cols.year && ys.isEmpty then
    Except.error (PyError.valueError "cannot convert float NaN to integer")
  else
    let yearRange :=
      if athletes.cols.year then
        match ys.min?, ys.max? with
        | some lo, some hi => some (lo, hi)
        | _, _ => none
      else none
    let numCountries :=
      if athletes.cols.noc then some (nunique (athletes.rows.map Row.noc)) else none
    let numSports :=
      if athletes.cols.sport then some (nunique (athletes.rows.map Row.sport)) else none
    let numEvents :=
      if athletes.cols.event then some (nunique (athletes.rows.map Row.event)) else none
    match active with
    | some a =>
      if athletes.rows.length = 0 then
        Except.error PyError.zeroDivisionError
      else
        Except.ok ⟨athletes.rows.length, yearRange, numCountries, numSports,
          numEvents,
          some (a.rows.length, (a.rows.length : Rat) / (athletes.rows.length : Rat) * 100)⟩
    | none =>
      Except.ok ⟨athletes.rows.length, yearRange, numCountries, numSports,
        numEvents, none⟩

/-! ## Helper lemmas -/

theorem list_map_id_of {α : Type} (f : α → α) (l : List α)
    (h : ∀ a ∈ l, f a = a) : l.map f = l := by
  induction l with
  | nil => rfl
  | cons a t ih =>
    simp only [List.map_cons]
    rw [h a (List.mem_cons_self a t), ih fun x hx => h x (List.mem_cons_of_mem a hx)]

/-- Every value of the country mapping is RUS or GER. -/
theorem lookup_country_mapping_val (s t : String)
    (h : country_mapping.lookup s = some t) : t = "RUS" ∨ t = "GER" := by
  simp only [country_mapping, List.lookup] at h
  repeat' split at h
  all_goals simp_all

/-- Every key of the country mapping is one of the four deprecated codes. -/
theorem lookup_country_mapping_key (s t : String)
    (h : country_mapping.lookup s = some t) :
    s = "URS" ∨ s = "EUN" ∨ s = "GDR" ∨ s = "FRG" := by
  simp only [country_mapping, List.lookup] at h
  repeat' split at h
  all_goals simp_all

/-- The kept-row predicate of a pandas not-equal comparison against a string
literal, as a propositional inequality. -/
theorem bang_pdEq_str (c : Cell) (s : String) :
    (!(pdEq c (Cell.str s))) = true ↔ c ≠ Cell.str s := by
  cases c <;> simp [pdEq]

theorem filter_ne_str_mem (l : List Row) (f : Row → Cell) (s : String) (r : Row) :
    r ∈ l.filter (fun x => !(pdEq (f x) (Cell.str s))) ↔
      r ∈ l ∧ f r ≠ Cell.str s := by
  rw [List.mem_filter, bang_pdEq_str]

/-! ## Claim C2 -/

/-- C2 amended: anomaly removal filters by exact string equality on the
period label.  Given a primary table with an edition column whose
post-filter edition values do not mix string with non-string cells (the
gap-year diagnostic sorts them, and Python cannot order such a mix), the
operation succeeds; the cleaned table holds exactly the rows whose edition
cell differs from the 1906 label; the removed count is the original row
count minus the cleaned row count, at least one when a matching row was
present and zero when none matches; and the same holds for the guarded
medals table. -/
theorem anomaly_removal_exact_filter (athletes medals : Table)
    (res : AnomalyResult) (hed : athletes.cols.edition = true)
    (hhom : mixedStrTypes ((athletes.rows.filter fun r =>
      !(pdEq r.edition (Cell.str disallowedEdition))).map Row.edition) = false)
    (h : handle_historical_anomalies athletes medals = Except.ok res) :
    res.athletes.rows =
      athletes.rows.filter (fun r => !(pdEq r.edition (Cell.str disallowedEdition))) ∧
    (∀ r, r ∈ res.athletes.rows ↔
      r ∈ athletes.rows ∧ r.edition ≠ Cell.str disallowedEdition) ∧
    (∀ r ∈ res.athletes.rows, r.edition ≠ Cell.str disallowedEdition) ∧
    res.deleted1906 = athletes.rows.length - res.athletes.rows.length ∧
    ((∃ r ∈ athletes.rows, r.edition = Cell.str disallowedEdition) →
      1 ≤ res.deleted1906) ∧
    ((∀ r ∈ athletes.rows, r.edition ≠ Cell.str disallowedEdition) →
      res.deleted1906 = 0 ∧ res.athletes.rows = athletes.rows) ∧
    (medals.cols.edition = true →
      ∀ r, r ∈ res.medals.rows ↔
        r ∈ medals.rows ∧ r.edition ≠ Cell.str disallowedEdition) := by
  have hres :
      res.athletes.rows =
        athletes.rows.filter (fun r => !(pdEq r.edition (Cell.str disallowedEdition))) ∧
      res.deleted1906 = athletes.rows.length -
        (athletes.rows.filter
          (fun r => !(pdEq r.edition (Cell.str disallowedEdition)))).length ∧
      (medals.cols.edition = true →
        res.medals.rows =
          medals.rows.filter (fun r => !(pdEq r.edition (Cell.str disallowedEdition)))) := by
    unfold handle_historical_anomalies at h
    rw [hed] at h
    simp only [Bool.true_eq_false, if_false] at h
    rw [hhom] at h
    simp only [Bool.false_eq_true, if_false] at h
    by_cases hm : medals.cols.edition = true
    · rw [if_pos hm] at h
      cases h
      exact ⟨rfl, rfl, fun _ => rfl⟩
    · rw [if_neg (by simpa using hm)] at h
      cases h
      exact ⟨rfl, rfl, fun hx => absurd hx hm⟩
  obtain ⟨h1, h2, h3⟩ := hres
  have hmem : ∀ r, r ∈ res.athletes.rows ↔
      r ∈ athletes.rows ∧ r.edition ≠ Cell.str disallowedEdition := by
    intro r
    rw [h1]
    exact filter_ne_str_mem _ _ _ _
  refine ⟨h1, hmem, fun r hr => ((hmem r).mp hr).2, by rw [h1]; exact h2,
    ?_, ?_, ?_⟩
  · rintro ⟨r, hr, hlab⟩
    have hlt : (athletes.rows.filter
        (fun r => !(pdEq r.edition (Cell.str disallowedEdition)))).length <
        athletes.rows.length := by
      refine List.length_filter_lt_length_iff_exists.mpr ⟨r, hr, ?_⟩
      simp [bang_pdEq_str, hlab, pdEq]
    omega
  · intro hall
    have heq : athletes.rows.filter
        (fun r => !(pdEq r.edition (Cell.str disallowedEdition))) = athletes.rows :=
      List.filter_eq_self.mpr fun r hr => (bang_pdEq_str _ _).mpr (hall r hr)
    rw [h1, heq]
    rw [heq] at h2
    exact ⟨by omega, rfl⟩
  · intro hm r
    rw [h3 hm]
    exact filter_ne_str_mem _ _ _ _

/-! ## Claim C1 -/

/-- Substitution through the country mapping never produces a mapping key:
the mapping targets (RUS, GER) are not themselves keys. -/
theorem replace_cm_ne_key (c : Cell) (k : String)
    (hk : (country_mapping.lookup k).isSome = true) :
    replaceCell country_mapping c ≠ Cell.str k := by
  cases c with
  | null => simp [replaceCell]
  | num n => simp [replaceCell]
  | str s =>
    cases hl : country_mapping.lookup s with
    | none =>
      simp only [replaceCell, hl]
      intro hcon
      have hsk : s = k := by injection hcon
      rw [hsk] at hl
      rw [hl] at hk
      simp at hk
    | some t =>
      simp only [replaceCell, hl]
      intro hcon
      have htk : t = k := by injection hcon
      subst htk
      rcases lookup_country_mapping_val s t hl with h | h <;> subst h <;>
        revert hk <;> decide

/-- The consolidated rows carry neither a mapping key nor the sentinel. -/
theorem consolidateRows_cm_clean (rows : List Row) :
    ∀ r ∈ (consolidateRows country_mapping sentinelCode rows).1,
      ∀ k ∈ ["URS", "EUN", "GDR", "FRG", "MIX"], r.noc ≠ Cell.str k := by
  intro r hr k hk
  unfold consolidateRows at hr
  simp only [List.mem_filter, List.mem_map] at hr
  obtain ⟨⟨r0, _, rfl⟩, hpred⟩ := hr
  simp only
  fin_cases hk
  · exact replace_cm_ne_key _ _ (by decide)
  · exact replace_cm_ne_key _ _ (by decide)
  · exact replace_cm_ne_key _ _ (by decide)
  · exact replace_cm_ne_key _ _ (by decide)
  · exact (bang_pdEq_str _ _).mp hpred

/-- C1: consolidation substitutes through the many-to-one mapping first and
drops sentinel rows second.  After consolidation no row of the athletes
table (nor of a noc-bearing medals table) carries the sentinel or any
mapping key; every row whose code was a mapping key reappears with the
mapped value; and, for any mapping and sentinel whatsoever, a row whose
code is substituted onto the sentinel is dropped, because the substitution
precedes the sentinel drop. -/
theorem consolidate_substitution_then_sentinel_drop
    (athletes medals : Table) (res : ConsolidateResult)
    (ha : athletes.cols.noc = true)
    (h : standardize_country_codes athletes medals = Except.ok res) :
    (∀ r ∈ res.athletes.rows,
      ∀ k ∈ ["URS", "EUN", "GDR", "FRG", "MIX"], r.noc ≠ Cell.str k) ∧
    (∀ r ∈ athletes.rows, ∀ k v, country_mapping.lookup k = some v →
      r.noc = Cell.str k → { r with noc := Cell.str v } ∈ res.athletes.rows) ∧
    (medals.cols.noc = true → ∀ r ∈ res.medals.rows,
      ∀ k ∈ ["URS", "EUN", "GDR", "FRG", "MIX"], r.noc ≠ Cell.str k) ∧
    (∀ (mapping : List (String × String)) (sentinel : String) (rows : List Row),
      (∀ r ∈ (consolidateRows mapping sentinel rows).1,
        r.noc ≠ Cell.str sentinel) ∧
      (∀ r ∈ rows, replaceCell mapping r.noc = Cell.str sentinel →
        { r with noc := replaceCell mapping r.noc } ∉
          (consolidateRows mapping sentinel rows).1)) := by
  have hgen : ∀ (mapping : List (String × String)) (sentinel : String)
      (rows : List Row),
      (∀ r ∈ (consolidateRows mapping sentinel rows).1,
        r.noc ≠ Cell.str sentinel) ∧
      (∀ r ∈ rows, replaceCell mapping r.noc = Cell.str sentinel →
        { r with noc := replaceCell mapping r.noc } ∉
          (consolidateRows mapping sentinel rows).1) := by
    intro mapping sentinel rows
    have hclean : ∀ r ∈ (consolidateRows mapping sentinel rows).1,
        r.noc ≠ Cell.str sentinel := by
      intro r hr
      unfold consolidateRows at hr
      simp only [List.mem_filter] at hr
      exact (bang_pdEq_str _ _).mp hr.2
    refine ⟨hclean, fun r _ hs hmem => ?_⟩
    exact hclean _ hmem (by simpa using hs)
  have hrows : res.athletes.rows =
      (consolidateRows country_mapping sentinelCode athletes.rows).1 ∧
      (medals.cols.noc = true → res.medals.rows =
        (consolidateRows country_mapping sentinelCode medals.rows).1) := by
    unfold standardize_country_codes at h
    rw [ha] at h
    simp only [if_true] at h
    by_cases hm : medals.cols.noc = true
    · rw [hm] at h
      simp only [if_true] at h
      cases h
      exact ⟨rfl, fun _ => rfl⟩
    · rw [Bool.not_eq_true] at hm
      rw [hm] at h
      simp only [Bool.false_eq_true, if_false] at h
      cases h
      exact ⟨rfl, fun hx => by rw [hm] at hx; cases hx⟩
  obtain ⟨hra, hrm⟩ := hrows
  refine ⟨by rw [hra]; exact consolidateRows_cm_clean _, ?_,
    fun hm => by rw [hrm hm]; exact consolidateRows_cm_clean _, hgen⟩
  intro r hr k v hkv hrk
  rw [hra]
  unfold consolidateRows
  simp only [List.mem_filter, List.mem_map]
  have hrepl : replaceCell country_mapping r.noc = Cell.str v := by
    rw [hrk]
    simp [replaceCell, hkv]
  refine ⟨⟨r, hr, by rw [hrepl]⟩, ?_⟩
  rw [bang_pdEq_str]
  show Cell.str v ≠ Cell.str sentinelCode
  rcases lookup_country_mapping_val k v hkv with h | h <;> subst h <;> decide

/-! ## Claims C3 and C4 -/

/-- Reading back the year column just written. -/
theorem getYC_setYC (r : Row) (yc : YearCol) (c : Cell) :
    (r.setYC yc c).getYC yc = c := by
  cases yc <;> rfl

/-- The active-subset predicate holds exactly on numeric years at or above
the cutoff. -/
theorem activePred_iff (cutoff : Int) (yc : YearCol) (r : Row) :
    activePred cutoff yc r = true ↔
      ∃ n, r.getYC yc = Cell.num n ∧ cutoff ≤ n := by
  unfold activePred
  cases hc : r.getYC yc <;> simp [hc]

/-- Numeric coercion never yields a string cell. -/
theorem toNumericCell_ne_str (c : Cell) (s : String) :
    toNumericCell c ≠ Cell.str s := by
  cases c with
  | num n => simp [toNumericCell]
  | null => simp [toNumericCell]
  | str s2 =>
    simp only [toNumericCell]
    cases s2.toInt? <;> simp

/-- Inversion of the common subset-building tail. -/
theorem buildSubset_ok (t : Table) (yc : YearCol) (cutoff : Int)
    (res : SubsetResult) (h : buildSubset t yc cutoff = Except.ok res) :
    res.usedCol = yc ∧
    res.athletes.rows =
      t.rows.map (fun r => r.setYC yc (toNumericCell (r.getYC yc))) ∧
    res.active.rows = res.athletes.rows.filter (activePred cutoff yc) ∧
    res.total = res.athletes.rows.length ∧
    res.activeCount = res.active.rows.length ∧
    res.retention = (res.activeCount : Rat) / (res.total : Rat) * 100 := by
  simp only [buildSubset] at h
  split at h
  · cases h
  · cases h
    exact ⟨rfl, rfl, rfl, rfl, rfl, rfl⟩

/-- The subset-building tail never raises the fatal configuration error. -/
theorem buildSubset_no_valueError (t : Table) (yc : YearCol) (cutoff : Int)
    (m : String) : buildSubset t yc cutoff ≠ Except.error (PyError.valueError m) := by
  simp only [buildSubset]
  split <;> simp

/-- C3: the active subset holds exactly the rows of the (numerified) primary
table whose resolved year is numeric and at or above the cutoff; the
resolved year column holds only numbers and nulls; a null year is never in
the subset; the reported counts are the row counts and the retention rate is
active over total times one hundred; an unparseable year cell coerces to
null, not to a number. -/
theorem active_subset_exact (t : Table) (cutoff : Int) (res : SubsetResult)
    (h : create_active_athletes_subset t cutoff = Except.ok res) :
    res.active.rows = res.athletes.rows.filter (activePred cutoff res.usedCol) ∧
    (∀ r, r ∈ res.active.rows ↔ r ∈ res.athletes.rows ∧
      ∃ n, r.getYC res.usedCol = Cell.num n ∧ cutoff ≤ n) ∧
    (∀ r ∈ res.athletes.rows,
      r.getYC res.usedCol = Cell.null ∨ ∃ n, r.getYC res.usedCol = Cell.num n) ∧
    (∀ r ∈ res.athletes.rows, r.getYC res.usedCol = Cell.null →
      r ∉ res.active.rows) ∧
    res.total = res.athletes.rows.length ∧
    res.activeCount = res.active.rows.length ∧
    res.retention = (res.activeCount : Rat) / (res.total : Rat) * 100 ∧
    (∀ s : String, s.toInt? = none → toNumericCell (Cell.str s) = Cell.null) ∧
    toNumericCell Cell.null = Cell.null := by
  have hb : ∃ t' : Table, res.athletes.rows =
      t'.rows.map (fun r => r.setYC res.usedCol (toNumericCell (r.getYC res.usedCol))) ∧
      res.active.rows = res.athletes.rows.filter (activePred cutoff res.usedCol) ∧
      res.total = res.athletes.rows.length ∧
      res.activeCount = res.active.rows.length ∧
      res.retention = (res.activeCount : Rat) / (res.total : Rat) * 100 := by
    unfold create_active_athletes_subset at h
    cases hc : chooseYearCol t with
    | some yc =>
      rw [hc] at h
      obtain ⟨hu, h2, h3, h4, h5, h6⟩ := buildSubset_ok _ _ _ _ h
      rw [hu]
      exact ⟨t, h2, h3, h4, h5, h6⟩
    | none =>
      rw [hc] at h
      by_cases hed : t.cols.edition = true
      · rw [hed] at h
        simp only [if_true] at h
        obtain ⟨hu, h2, h3, h4, h5, h6⟩ := buildSubset_ok _ _ _ _ h
        rw [hu]
        exact ⟨_, h2, h3, h4, h5, h6⟩
      · rw [Bool.not_eq_true] at hed
        rw [hed] at h
        simp at h
  obtain ⟨t', hmap, hfil, htot, hcnt, hret⟩ := hb
  have hmem : ∀ r, r ∈ res.active.rows ↔ r ∈ res.athletes.rows ∧
      ∃ n, r.getYC res.usedCol = Cell.num n ∧ cutoff ≤ n := by
    intro r
    rw [hfil, List.mem_filter, activePred_iff]
  refine ⟨hfil, hmem, ?_, ?_, htot, hcnt, hret, ?_, rfl⟩
  · intro r hr
    rw [hmap, List.mem_map] at hr
    obtain ⟨r0, _, rfl⟩ := hr
    rw [getYC_setYC]
    cases hcell : toNumericCell (r0.getYC res.usedCol) with
    | str s => exact absurd hcell (toNumericCell_ne_str _ _)
    | num n => exact Or.inr ⟨n, rfl⟩
    | null => exact Or.inl rfl
  · intro r hr hnull hmemact
    obtain ⟨-, n, hn, -⟩ := (hmem r).mp hmemact
    rw [hnull] at hn
    cases hn
  · intro s hs
    simp [toNumericCell, hs]

/-- No year column is chosen exactly when all three recognized names are
absent. -/
theorem chooseYearCol_eq_none (t : Table) :
    chooseYearCol t = none ↔
      t.cols.year = false ∧ t.cols.editionYear = false ∧
      t.cols.gamesYear = false := by
  unfold chooseYearCol
  cases hy : t.cols.year <;> cases he : t.cols.editionYear <;>
    cases hg : t.cols.gamesYear <;> simp

/-- C4: temporal subsetting raises the fatal configuration error exactly
when no year source exists, that is when none of the recognized year columns
is present and there is no edition column to extract a year from. -/
theorem year_source_fatal_iff_absent (t : Table) (cutoff : Int) :
    create_active_athletes_subset t cutoff =
      Except.error (PyError.valueError yearSourceMsg) ↔
    (t.cols.year = false ∧ t.cols.editionYear = false ∧
     t.cols.gamesYear = false ∧ t.cols.edition = false) := by
  constructor
  · intro h
    unfold create_active_athletes_subset at h
    cases hc : chooseYearCol t with
    | some yc =>
      simp only [hc] at h
      exact absurd h (buildSubset_no_valueError _ _ _ _)
    | none =>
      simp only [hc] at h
      obtain ⟨h1, h2, h3⟩ := (chooseYearCol_eq_none t).mp hc
      by_cases hed : t.cols.edition = true
      · rw [if_pos hed] at h
        exact absurd h (buildSubset_no_valueError _ _ _ _)
      · rw [Bool.not_eq_true] at hed
        exact ⟨h1, h2, h3, hed⟩
  · rintro ⟨h1, h2, h3, h4⟩
    have hnone := (chooseYearCol_eq_none t).mpr ⟨h1, h2, h3⟩
    simp [create_active_athletes_subset, hnone, h4]

/-! ## Example data shared by the witnesses -/

/-- The empty schema. -/
def colsNone : Cols :=
  ⟨false, false, false, false, false, false, false, false, false⟩

/-- A row of nulls. -/
def blankRow : Row :=
  ⟨Cell.null, Cell.null, Cell.null, Cell.null, Cell.null, Cell.null,
   Cell.null, Cell.null, Cell.null⟩

/-- A row carrying only a country code. -/
def nocRow (s : String) : Row := { blankRow with noc := Cell.str s }

/-- A row carrying only an edition label. -/
def edRow (s : String) : Row := { blankRow with edition := Cell.str s }

/-- A row carrying only a numeric year. -/
def yearRow (n : Int) : Row := { blankRow with year := Cell.num n }

/-- Athletes fixture for consolidation: a deprecated code, the sentinel and
a regular code. -/
def exAthletes1 : Table :=
  ⟨{ colsNone with noc := true }, [nocRow "URS", nocRow "MIX", nocRow "USA"]⟩

/-- An empty side table without relevant columns. -/
def exEmptyTable : Table := ⟨colsNone, []⟩

/-- The computed consolidation result on the fixture. -/
def exConsRes : ConsolidateResult :=
  (standardize_country_codes exAthletes1 exEmptyTable).toOption.getD
    ⟨exAthletes1, exEmptyTable, 0⟩

/-- Witness for C1 at a concrete input: the URS row reappears with code RUS
and the cleaned rows are exactly the substituted non-sentinel rows. -/
theorem consolidate_substitution_then_sentinel_drop_witness :
    { nocRow "URS" with noc := Cell.str "RUS" } ∈ exConsRes.athletes.rows ∧
    exConsRes.athletes.rows = [nocRow "RUS", nocRow "USA"] ∧
    exConsRes.mixedTeamCount = 1 :=
  ⟨(consolidate_substitution_then_sentinel_drop exAthletes1 exEmptyTable
      exConsRes rfl rfl).2.1 (nocRow "URS") (by decide) "URS" "RUS"
      (by decide) rfl,
   by decide, by decide⟩

/-- Athletes fixture for anomaly removal: one 1906 row and one 1996 row. -/
def exAthletes2 : Table :=
  ⟨{ colsNone with edition := true },
   [edRow "1906 Summer Olympics", edRow "1996 Summer Games"]⟩

/-- The computed anomaly-removal result on the fixture. -/
def exAnomRes : AnomalyResult :=
  (handle_historical_anomalies exAthletes2 exEmptyTable).toOption.getD
    ⟨exAthletes2, exEmptyTable, 0, 0⟩

/-- Witness for C2 at a concrete input: the 1906 row is removed with count
one and the 1996 row survives. -/
theorem anomaly_removal_exact_filter_witness :
    1 ≤ exAnomRes.deleted1906 ∧
    exAnomRes.athletes.rows = [edRow "1996 Summer Games"] :=
  ⟨(anomaly_removal_exact_filter exAthletes2 exEmptyTable exAnomRes rfl
      (by decide) rfl).2.2.2.2.1 ⟨edRow "1906 Summer Olympics", by decide, rfl⟩,
   by decide⟩

/-- An edition column mixing a NaN cell with a string cell, no 1906 row. -/
def mixedEditionTable : Table :=
  ⟨{ colsNone with edition := true }, [blankRow, edRow "1996 Summer Games"]⟩

/-- Counterexample to C2 as stated: a table with an edition column and no
disallowed-period row on which the operation does not succeed with removed
count zero — its edition values mix NaN with a string, so the gap-year
diagnostic that sorts the filtered edition values raises TypeError. -/
theorem anomaly_mixed_editions_counterexample :
    (mixedEditionTable.rows.all fun r =>
      !(pdEq r.edition (Cell.str disallowedEdition))) = true ∧
    handle_historical_anomalies mixedEditionTable exEmptyTable =
      Except.error PyError.typeError :=
  ⟨rfl, rfl⟩

/-- Primary fixture for the active subset: years 2016, 2020, 2024, missing. -/
def exTable4 : Table :=
  ⟨{ colsNone with year := true },
   [yearRow 2016, yearRow 2020, yearRow 2024, blankRow]⟩

/-- The computed subset result on the fixture. -/
def exSubRes : SubsetResult :=
  (create_active_athletes_subset exTable4 2020).toOption.getD
    ⟨exTable4, exTable4, YearCol.year, 0, 0, 0⟩

/-- Witness for C3 at the concrete input of the claim: cutoff 2020 over
years 2016, 2020, 2024 and missing keeps exactly the 2020 and 2024 rows and
reports a retention rate of 50. -/
theorem active_subset_exact_witness :
    exSubRes.retention =
      (exSubRes.activeCount : Rat) / (exSubRes.total : Rat) * 100 ∧
    exSubRes.active.rows = [yearRow 2020, yearRow 2024] ∧
    exSubRes.activeCount = 2 ∧ exSubRes.total = 4 ∧ exSubRes.retention = 50 := by
  have h := active_subset_exact exTable4 2020 exSubRes rfl
  have hret := h.2.2.2.2.2.2.1
  have hcnt : exSubRes.activeCount = 2 := by decide
  have htot : exSubRes.total = 4 := by decide
  refine ⟨hret, by decide, hcnt, htot, ?_⟩
  rw [hret, hcnt, htot]
  norm_num

/-- A one-row table with no year source at all. -/
def noSourceTable : Table := ⟨colsNone, [blankRow]⟩

/-- Witness for C4 at a concrete input: with no year source the operation
raises the fatal configuration error. -/
theorem year_source_fatal_iff_absent_witness :
    create_active_athletes_subset noSourceTable 2020 =
      Except.error (PyError.valueError yearSourceMsg) :=
  (year_source_fatal_iff_absent noSourceTable 2020).mpr (by decide)

/-! ## Claim C8 -/

/-- Substitution is the identity on a cell that carries none of the four
deprecated codes. -/
theorem replaceCell_id_of_not_key (c : Cell)
    (h : ∀ k ∈ ["URS", "EUN", "GDR", "FRG"], c ≠ Cell.str k) :
    replaceCell country_mapping c = c := by
  cases c with
  | null => rfl
  | num n => rfl
  | str s =>
    cases hl : country_mapping.lookup s with
    | none => simp [replaceCell, hl]
    | some t =>
      exfalso
      rcases lookup_country_mapping_key s t hl with h1 | h1 | h1 | h1 <;>
        subst h1 <;> simp_all

/-- Consolidation of rows that carry neither a mapping key nor the sentinel
keeps every row unchanged and drops nothing. -/
theorem consolidateRows_id_of_clean (rows : List Row)
    (hclean : ∀ r ∈ rows,
      ∀ k ∈ ["URS", "EUN", "GDR", "FRG", "MIX"], r.noc ≠ Cell.str k) :
    consolidateRows country_mapping sentinelCode rows = (rows, 0) := by
  simp only [consolidateRows]
  have hmap : rows.map
      (fun r => { r with noc := replaceCell country_mapping r.noc }) = rows := by
    refine list_map_id_of _ _ fun r hr => ?_
    refine congrArg (Row.mk · r.edition r.year r.editionYear r.gamesYear
      r.medal r.sport r.event r.athleteId) ?_ |>.trans rfl
    refine replaceCell_id_of_not_key r.noc fun k hk => ?_
    fin_cases hk
    · exact hclean r hr "URS" (by decide)
    · exact hclean r hr "EUN" (by decide)
    · exact hclean r hr "GDR" (by decide)
    · exact hclean r hr "FRG" (by decide)
  rw [hmap]
  have hne : ∀ r ∈ rows, ¬(pdEq r.noc (Cell.str sentinelCode) = true) := by
    intro r hr hq
    exact hclean r hr "MIX" (by decide) ((pdEq_str_iff _ _).mp hq)
  rw [List.filter_eq_self.mpr fun r hr => by
      rw [bang_pdEq_str]
      exact hclean r hr "MIX" (by decide),
    List.filter_eq_nil_iff.mpr hne]
  rfl

/-- C8 amended: anomaly removal and code consolidation are no-ops with a
zero removed or dropped count on tables that are already clean, that is
free of the disallowed period label, of the mapping keys and of the
sentinel — for the anomaly filter under the proviso that the clean edition
column does not mix string with non-string cells (otherwise the gap-year
diagnostic raises TypeError); consolidation needs no proviso. -/
theorem cleaning_idempotent_on_clean :
    (∀ athletes medals : Table,
      athletes.cols.edition = true →
      mixedStrTypes (athletes.rows.map Row.edition) = false →
      (∀ r ∈ athletes.rows, r.edition ≠ Cell.str disallowedEdition) →
      (∀ r ∈ medals.rows, r.edition ≠ Cell.str disallowedEdition) →
      handle_historical_anomalies athletes medals =
        Except.ok ⟨athletes, medals, 0, 0⟩) ∧
    (∀ athletes medals : Table,
      athletes.cols.noc = true →
      (∀ r ∈ athletes.rows,
        ∀ k ∈ ["URS", "EUN", "GDR", "FRG", "MIX"], r.noc ≠ Cell.str k) →
      (∀ r ∈ medals.rows,
        ∀ k ∈ ["URS", "EUN", "GDR", "FRG", "MIX"], r.noc ≠ Cell.str k) →
      standardize_country_codes athletes medals =
        Except.ok ⟨athletes, medals, 0⟩) := by
  constructor
  · intro athletes medals hed hhom hA hM
    unfold handle_historical_anomalies
    rw [hed]
    have hfa : athletes.rows.filter
        (fun r => !(pdEq r.edition (Cell.str disallowedEdition))) = athletes.rows :=
      List.filter_eq_self.mpr fun r hr => (bang_pdEq_str _ _).mpr (hA r hr)
    have hfm : medals.rows.filter
        (fun r => !(pdEq r.edition (Cell.str disallowedEdition))) = medals.rows :=
      List.filter_eq_self.mpr fun r hr => (bang_pdEq_str _ _).mpr (hM r hr)
    by_cases hm : medals.cols.edition = true
    · simp only [Bool.true_eq_false, if_false, hm, if_true, hfa, hfm, hhom,
        Bool.false_eq_true, Nat.sub_self]
    · rw [Bool.not_eq_true] at hm
      simp only [Bool.true_eq_false, if_false, hm, Bool.false_eq_true, hfa,
        hhom, Nat.sub_self]
  · intro athletes medals hnoc hA hM
    unfold standardize_country_codes
    rw [hnoc]
    simp only [if_true, consolidateRows_id_of_clean athletes.rows hA,
      consolidateRows_id_of_clean medals.rows hM]
    by_cases hm : medals.cols.noc = true
    · rw [hm]
      simp only [if_true]
    · rw [Bool.not_eq_true] at hm
      rw [hm]
      simp only [Bool.false_eq_true, if_false]

/-- A table that is already clean: canonical codes, post-1906 editions. -/
def cleanAthletes : Table :=
  ⟨{ colsNone with edition := true, noc := true },
   [{ blankRow with noc := Cell.str "RUS", edition := Cell.str "1996 Summer Games" },
    { blankRow with noc := Cell.str "USA", edition := Cell.str "2020 Summer Olympics" }]⟩

/-- A clean side table with edition and noc columns. -/
def cleanMedals : Table :=
  ⟨{ colsNone with edition := true, noc := true },
   [{ blankRow with noc := Cell.str "GER", edition := Cell.str "2020 Summer Olympics" }]⟩

/-- Witness for C8 at a concrete clean input: both operations return the
tables unchanged with zero counts. -/
theorem cleaning_idempotent_on_clean_witness :
    handle_historical_anomalies cleanAthletes cleanMedals =
      Except.ok ⟨cleanAthletes, cleanMedals, 0, 0⟩ ∧
    standardize_country_codes cleanAthletes cleanMedals =
      Except.ok ⟨cleanAthletes, cleanMedals, 0⟩ :=
  ⟨cleaning_idempotent_on_clean.1 cleanAthletes cleanMedals rfl (by decide)
      (by decide) (by decide),
   cleaning_idempotent_on_clean.2 cleanAthletes cleanMedals rfl (by decide)
      (by decide)⟩

/-- A table that is clean in the sense of C8 (no disallowed edition, no
deprecated code, no sentinel) but whose edition column mixes a NaN cell
with a string cell. -/
def mixedCleanTable : Table :=
  ⟨{ colsNone with edition := true, noc := true },
   [{ blankRow with noc := Cell.str "RUS" },
    { blankRow with noc := Cell.str "USA", edition := Cell.str "1996 Summer Games" }]⟩

/-- Counterexample to C8 as stated: on an already-cleaned table whose
edition column mixes NaN with a string, rerunning the anomaly filter is not
a no-op — it raises TypeError in the gap-year diagnostic. -/
theorem idempotence_mixed_editions_counterexample :
    (mixedCleanTable.rows.all fun r =>
      !(pdEq r.edition (Cell.str disallowedEdition)) &&
      !(pdEq r.noc (Cell.str "URS")) && !(pdEq r.noc (Cell.str "EUN")) &&
      !(pdEq r.noc (Cell.str "GDR")) && !(pdEq r.noc (Cell.str "FRG")) &&
      !(pdEq r.noc (Cell.str "MIX"))) = true ∧
    handle_historical_anomalies mixedCleanTable exEmptyTable =
      Except.error PyError.typeError :=
  ⟨rfl, rfl⟩

/-! ## Claim C10 -/

/-- C10: on a zero-row primary table the retention computation divides the
active count by the total count and fails with a ZeroDivisionError, both in
the subsetting operation (even with a usable year column, so the fatal
configuration error does not apply) and in the data-summary helper when an
active subset is supplied. -/
theorem retention_division_by_zero_on_empty :
    (∀ (t : Table) (cutoff : Int), t.cols.year = true → t.rows = [] →
      create_active_athletes_subset t cutoff =
        Except.error PyError.zeroDivisionError) ∧
    (∀ (t a : Table), t.cols.year = false → t.rows = [] →
      get_data_summary t (some a) =
        Except.error PyError.zeroDivisionError) := by
  constructor
  · intro t cutoff hy hrows
    unfold create_active_athletes_subset
    rw [show chooseYearCol t = some YearCol.year from by
      simp [chooseYearCol, hy]]
    simp [buildSubset, hrows]
  · intro t a hy hrows
    simp [get_data_summary, hy, hrows]

/-- An empty table that still has a year column. -/
def emptyYearTable : Table := ⟨{ colsNone with year := true }, []⟩

/-- An empty table with no columns at all. -/
def emptyPlainTable : Table := ⟨colsNone, []⟩

/-- Witness for C10 at concrete empty tables. -/
theorem retention_division_by_zero_on_empty_witness :
    create_active_athletes_subset emptyYearTable 2020 =
      Except.error PyError.zeroDivisionError ∧
    get_data_summary emptyPlainTable (some exTable4) =
      Except.error PyError.zeroDivisionError :=
  ⟨retention_division_by_zero_on_empty.1 emptyYearTable 2020 rfl rfl,
   retention_division_by_zero_on_empty.2 emptyPlainTable exTable4 rfl rfl⟩

/-! ## Claim C5 -/

/-- The null-check column list is empty exactly when none of the three
important columns is present. -/
theorem nullCheckCols_isEmpty (t : Table) :
    (nullCheckCols t).isEmpty = true ↔
      (t.cols.noc || t.cols.medal || t.cols.sport) = false := by
  unfold nullCheckCols
  cases hn : t.cols.noc <;> cases hm : t.cols.medal <;>
    cases hs : t.cols.sport <;> simp

/-- Whether the list starts with four digit characters (a window of the
four-digit pattern at this position). -/
def isRun4 : List Char → Bool
  | a :: b :: c :: d :: _ => a.isDigit && b.isDigit && c.isDigit && d.isDigit
  | _ => false

/-- Value of the four leading digits of the list (zero if shorter). -/
def run4val : List Char → Nat
  | a :: b :: c :: d :: _ =>
    digitVal a * 1000 + digitVal b * 100 + digitVal c * 10 + digitVal d
  | _ => 0

theorem isRun4_false_of_short (l : List Char) (h : l.length < 4) :
    isRun4 l = false := by
  cases l with
  | nil => rfl
  | cons a l1 =>
    cases l1 with
    | nil => rfl
    | cons b l2 =>
      cases l2 with
      | nil => rfl
      | cons c l3 =>
        cases l3 with
        | nil => rfl
        | cons d l4 => simp [List.length_cons] at h; omega

theorem extract_none_of_short (l : List Char) (h : l.length < 4) :
    extractFirst4 l = none := by
  cases l with
  | nil => rfl
  | cons a l1 =>
    cases l1 with
    | nil => rfl
    | cons b l2 =>
      cases l2 with
      | nil => rfl
      | cons c l3 =>
        cases l3 with
        | nil => rfl
        | cons d l4 => simp [List.length_cons] at h; omega

theorem extract_short_both (s : List Char) (hlen : s.length < 4) :
    (extractFirst4 s = none ↔ ∀ i, isRun4 (s.drop i) = false) ∧
    (∀ i, isRun4 (s.drop i) = true → (∀ j, j < i → isRun4 (s.drop j) = false) →
      extractFirst4 s = some (run4val (s.drop i))) := by
  have hext : extractFirst4 s = none := extract_none_of_short s hlen
  have hrun : ∀ i, isRun4 (s.drop i) = false := fun i =>
    isRun4_false_of_short _ (by rw [List.length_drop]; omega)
  exact ⟨⟨fun _ => hrun, fun _ => hext⟩,
    fun i hi _ => absurd hi (by simp [hrun i])⟩

/-- C6 amended: the four-digit year extraction returns the value of the
first (leftmost) window of four consecutive digits, and it is unresolved
(missing) exactly when the label contains no such window: a label with
exactly one four-digit token resolves to that token, a label with no token
resolves to missing, but a label with several tokens resolves to the first
token rather than to missing. -/
theorem extract_first_window_amended (s : List Char) :
    (extractFirst4 s = none ↔ ∀ i, isRun4 (s.drop i) = false) ∧
    (∀ i, isRun4 (s.drop i) = true → (∀ j, j < i → isRun4 (s.drop j) = false) →
      extractFirst4 s = some (run4val (s.drop i))) := by
  induction s with
  | nil => exact extract_short_both [] (by simp)
  | cons a t ih =>
    cases t with
    | nil => exact extract_short_both [a] (by simp)
    | cons b t2 =>
      cases t2 with
      | nil => exact extract_short_both [a, b] (by simp)
      | cons c t3 =>
        cases t3 with
        | nil => exact extract_short_both [a, b, c] (by simp)
        | cons d rest =>
          by_cases hg : (a.isDigit && b.isDigit && c.isDigit && d.isDigit) = true
          · constructor
            · constructor
              · intro hnone
                rw [show extractFirst4 (a :: b :: c :: d :: rest) =
                    some (run4val (a :: b :: c :: d :: rest)) from by
                  simp [extractFirst4, hg, run4val, digitVal]] at hnone
                cases hnone
              · intro hall
                have h0 := hall 0
                rw [List.drop_zero] at h0
                rw [show isRun4 (a :: b :: c :: d :: rest) = true from by
                  simp [isRun4, hg]] at h0
                cases h0
            · intro i hi hmin
              cases i with
              | zero =>
                rw [List.drop_zero]
                simp [extractFirst4, hg, run4val, digitVal]
              | succ j =>
                have h0 := hmin 0 (Nat.succ_pos j)
                rw [List.drop_zero] at h0
                rw [show isRun4 (a :: b :: c :: d :: rest) = true from by
                  simp [isRun4, hg]] at h0
                cases h0
          · have hext : extractFirst4 (a :: b :: c :: d :: rest) =
                extractFirst4 (b :: c :: d :: rest) := by
              rw [Bool.not_eq_true] at hg
              simp [extractFirst4, hg]
            have hrun0 : isRun4 (a :: b :: c :: d :: rest) = false := by
              rw [Bool.not_eq_true] at hg
              simp [isRun4, hg]
            constructor
            · rw [hext, ih.1]
              constructor
              · intro hall i
                cases i with
                | zero => rw [List.drop_zero]; exact hrun0
                | succ j => rw [List.drop_succ_cons]; exact hall j
              · intro hall j
                have := hall (j + 1)
                rw [List.drop_succ_cons] at this
                exact this
            · intro i hi hmin
              cases i with
              | zero =>
                rw [List.drop_zero] at hi
                rw [hrun0] at hi
                cases hi
              | succ j =>
                rw [List.drop_succ_cons] at hi
                rw [hext, List.drop_succ_cons]
                refine ih.2 j hi fun j2 hj2 => ?_
                have := hmin (j2 + 1) (by omega)
                rw [List.drop_succ_cons] at this
                exact this

/-- A one-row table whose edition label holds two four-digit tokens and no
numeric year column. -/
def multiTokenTable : Table :=
  ⟨{ colsNone with edition := true },
   [edRow "2024 replay of the 1996 Summer Games"]⟩

/-- Counterexample to C6 as stated: on a label with several four-digit
tokens the derived year is the first token, not missing; the value flows
into the materialized year column of the subsetting operation. -/
theorem extract_multiple_tokens_first_not_missing :
    extractYearCell (Cell.str "2024 replay of the 1996 Summer Games") =
      Cell.num 2024 ∧
    (create_active_athletes_subset multiTokenTable 2020).toOption.map
      (fun r => r.athletes.rows.map Row.year) = some [Cell.num 2024] := by
  exact ⟨rfl, rfl⟩

/-- Witness for the amended C6 at the concrete label of the claim: the
label with exactly one four-digit token resolves to 1996. -/
theorem extract_first_window_amended_witness :
    extractFirst4 (String.data "1996 Summer Games") = some 1996 := by
  have h := (extract_first_window_amended
      (String.data "1996 Summer Games")).2 0 (by decide)
    (fun j hj => absurd hj (Nat.not_lt_zero j))
  exact h.trans (by decide)

/-! ## Claim C7 -/

/-- Inversion of create_country_features: success requires the noc column
and returns one feature row per distinct noc value. -/
theorem create_country_features_ok (t : Table) (feats : List CountryFeat)
    (h : create_country_features t = Except.ok feats) :
    t.cols.noc = true ∧
    feats = (firstUniques (t.rows.map Row.noc)).map (countryFeatOf t) := by
  cases hnoc : t.cols.noc with
  | false =>
    unfold create_country_features at h
    rw [hnoc] at h
    simp at h
  | true =>
    simp only [create_country_features, hnoc, Bool.true_eq_false, if_false] at h
    by_cases hemp :
        ((firstUniques (t.rows.map Row.noc)).map (countryFeatOf t)).isEmpty = true
    · rw [if_pos hemp] at h
      cases h
    · rw [if_neg hemp] at h
      exact ⟨rfl, ((Except.ok.injEq _ _).mp h).symm⟩

/-- An athletes table with an edition column but no noc column. -/
def athletesNoNoc : Table :=
  ⟨{ colsNone with edition := true }, [edRow "1996 Summer Games"]⟩

/-- A table with sport and noc columns but neither medal nor athlete id. -/
def sportNocTable : Table :=
  ⟨{ colsNone with sport := true, noc := true },
   [{ blankRow with noc := Cell.str "USA", sport := Cell.str "Swimming" }]⟩

/-- Counterexample to C7 as stated: two missing optional columns are not
absorbed.  Consolidation raises KeyError when the athletes table lacks the
entity-code column (the post-Soviet verification reads it unguarded), and
the category-strength derivation raises KeyError when sport and noc are
present but medal is absent (the aggregation names that column
unconditionally). -/
theorem missing_column_raises_counterexample :
    standardize_country_codes athletesNoNoc exEmptyTable =
      Except.error (PyError.keyError "noc") ∧
    create_sport_strength sportNocTable =
      Except.error (PyError.keyError "medal") :=
  ⟨rfl, rfl⟩

/-- C7 amended: guarded missing columns are absorbed — consolidation leaves
a noc-less medals table unchanged, the trend derivation returns an empty
table without medal or year, the strength derivation zeroes or omits the
fields depending on absent sport, event or medal columns, and the
category-strength derivation returns an empty table without sport or noc —
but consolidation raises KeyError when the athletes table itself lacks noc,
and category-strength raises KeyError when its guard passes while medal or
athlete id is absent. -/
theorem missing_column_amended :
    (∀ (athletes medals : Table) (res : ConsolidateResult),
      athletes.cols.noc = true → medals.cols.noc = false →
      standardize_country_codes athletes medals = Except.ok res →
      res.medals = medals) ∧
    (∀ athletes medals : Table, athletes.cols.noc = false →
      standardize_country_codes athletes medals =
        Except.error (PyError.keyError "noc")) ∧
    (∀ t : Table, (t.cols.medal = false ∨ t.cols.year = false) →
      create_medal_trends t = Except.ok []) ∧
    (∀ (t : Table) (feats : List CountryFeat),
      create_country_features t = Except.ok feats →
      (t.cols.sport = false → ∀ f ∈ feats, f.uniqueSports = 0) ∧
      (t.cols.event = false → ∀ f ∈ feats, f.uniqueEvents = 0) ∧
      (t.cols.medal = false → ∀ f ∈ feats, f.medalCounts = none)) ∧
    (∀ t : Table, (t.cols.sport = false ∨ t.cols.noc = false) →
      create_sport_strength t = Except.ok []) ∧
    (∀ t : Table, t.cols.sport = true → t.cols.noc = true →
      (t.cols.medal = false ∨ t.cols.athleteId = false) →
      ∃ c, create_sport_strength t = Except.error (PyError.keyError c)) := by
  refine ⟨?_, ?_, ?_, ?_, ?_, ?_⟩
  · intro athletes medals res hA hM h
    simp only [standardize_country_codes, hA, hM, Bool.false_eq_true,
      if_false, if_true] at h
    cases h
    rfl
  · intro athletes medals hA
    simp [standardize_country_codes, hA]
  · intro t h
    rcases h with h | h <;> simp [create_medal_trends, h]
  · intro t feats h
    obtain ⟨hnoc, hfeats⟩ := create_country_features_ok t feats h
    subst hfeats
    refine ⟨?_, ?_, ?_⟩ <;> intro hcol f hf <;>
      rw [List.mem_map] at hf <;> obtain ⟨code, -, rfl⟩ := hf <;>
      simp [countryFeatOf, hcol]
  · intro t h
    rcases h with h | h <;> simp [create_sport_strength, h]
  · intro t hs hn h
    by_cases hm : t.cols.medal = false
    · exact ⟨"medal", by simp [create_sport_strength, hs, hn, hm]⟩
    · rw [Bool.not_eq_false] at hm
      rcases h with h | h
      · rw [h] at hm
        cases hm
      · exact ⟨"athlete_id", by simp [create_sport_strength, hs, hn, hm, h]⟩

/-- Witness for the amended C7 at concrete inputs: both guarded derivations
absorb the missing columns by returning an empty table. -/
theorem missing_column_amended_witness :
    create_medal_trends exAthletes2 = Except.ok [] ∧
    create_sport_strength exAthletes2 = Except.ok [] :=
  ⟨missing_column_amended.2.2.1 exAthletes2 (Or.inl rfl),
   missing_column_amended.2.2.2.2.1 exAthletes2 (Or.inl rfl)⟩

/-! ## Claim C9 -/

/-- A one-row table whose single noc cell is null. -/
def nullNocTable : Table := ⟨{ colsNone with noc := true }, [blankRow]⟩

/-- Counterexample to C9 as stated: on a table whose single row carries a
null entity code, the strength table holds one row keyed by the null code
with athlete count zero, while the input holds one row with that code —
pandas NaN never compares equal, so the count is not the number of input
rows for that code. -/
theorem strength_null_key_count_mismatch :
    create_country_features nullNocTable =
      Except.ok [⟨Cell.null, 0, 0, 0, none⟩] ∧
    (nullNocTable.rows.filter fun r => r.noc == Cell.null).length = 1 :=
  ⟨rfl, rfl⟩

theorem mem_firstUniques {α : Type} [DecidableEq α] (x : α) (l : List α) :
    x ∈ firstUniques l ↔ x ∈ l := by
  induction l with
  | nil => simp [firstUniques]
  | cons c rest ih =>
    rw [firstUniques]
    constructor
    · intro hx
      rcases List.mem_cons.mp hx with hx | hx
      · exact hx ▸ List.mem_cons_self _ _
      · exact List.mem_cons_of_mem _ (ih.mp (List.mem_filter.mp hx).1)
    · intro hx
      rcases List.mem_cons.mp hx with hx | hx
      · exact hx ▸ List.mem_cons_self _ _
      · by_cases hxc : x = c
        · exact hxc ▸ List.mem_cons_self _ _
        · exact List.mem_cons_of_mem _ (List.mem_filter.mpr
            ⟨ih.mpr hx, by simp [hxc]⟩)

theorem nodup_firstUniques {α : Type} [DecidableEq α] (l : List α) :
    (firstUniques l).Nodup := by
  induction l with
  | nil => simp [firstUniques]
  | cons c rest ih =>
    rw [firstUniques]
    refine List.nodup_cons.mpr ⟨?_, ih.filter _⟩
    intro hc
    rw [List.mem_filter] at hc
    simp at hc

/-- pandas equality agrees with plain cell equality against a non-null
value. -/
theorem pdEq_eq_beq_of_ne_null (c d : Cell) (hd : d ≠ Cell.null) :
    pdEq c d = (c == d) := by
  rw [Bool.eq_iff_iff]
  cases c <;> cases d <;> simp_all [pdEq]

/-- C9 amended: the strength table is keyed uniquely (no duplicate noc
keys, at most one row per distinct value), and each row keyed by a non-null
code carries as athlete count the number of input rows with that code; a
row keyed by the null code carries athlete count zero regardless of how
many input rows have a null code. -/
theorem strength_unique_keys_amended (t : Table) (feats : List CountryFeat)
    (h : create_country_features t = Except.ok feats) :
    (feats.map CountryFeat.noc).Nodup ∧
    (∀ f ∈ feats, f.noc ≠ Cell.null →
      f.athleteCount = (t.rows.filter fun r => r.noc == f.noc).length) ∧
    (∀ f ∈ feats, f.noc = Cell.null → f.athleteCount = 0) := by
  obtain ⟨hnoc, hfeats⟩ := create_country_features_ok t feats h
  subst hfeats
  refine ⟨?_, ?_, ?_⟩
  · have hkeys : ((firstUniques (t.rows.map Row.noc)).map
        (countryFeatOf t)).map CountryFeat.noc =
        firstUniques (t.rows.map Row.noc) := by
      rw [List.map_map]
      exact list_map_id_of _ _ fun c _ => rfl
    rw [hkeys]
    exact nodup_firstUniques _
  · intro f hf hne
    rw [List.mem_map] at hf
    obtain ⟨code, -, rfl⟩ := hf
    have hcode : (countryFeatOf t code).noc = code := rfl
    rw [hcode] at hne ⊢
    show (t.rows.filter fun r => pdEq r.noc code).length = _
    rw [List.filter_congr fun r _ => pdEq_eq_beq_of_ne_null r.noc code hne]
  · intro f hf hnull
    rw [List.mem_map] at hf
    obtain ⟨code, -, rfl⟩ := hf
    have hcode : code = Cell.null := hnull
    subst hcode
    show (t.rows.filter fun r => pdEq r.noc Cell.null).length = 0
    rw [List.filter_eq_nil_iff.mpr fun r _ => by simp [pdEq_null_right]]
    rfl

/-- A three-row fixture with two countries. -/
def exStrengthTable : Table :=
  ⟨{ colsNone with noc := true }, [nocRow "USA", nocRow "FRA", nocRow "USA"]⟩

/-- The computed strength rows on the fixture. -/
def exFeats : List CountryFeat :=
  (create_country_features exStrengthTable).toOption.getD []

/-- Witness for the amended C9 at a concrete input: unique keys and correct
per-country counts. -/
theorem strength_unique_keys_amended_witness :
    (exFeats.map CountryFeat.noc).Nodup ∧
    exFeats.map CountryFeat.noc = [Cell.str "USA", Cell.str "FRA"] ∧
    exFeats.map CountryFeat.athleteCount = [2, 1] :=
  ⟨(strength_unique_keys_amended exStrengthTable exFeats rfl).1,
   by decide, by decide⟩
